import Mathlib

/-!
Verification of the IncluScore frontend scoring/simulation logic.

The definitions below are a shallow embedding of the JavaScript code of the
`ScoreSimulator` component (helper `convertEmploymentType`,
`prepareDataForBackend`, `handleSimulate`, `simulateScoreLocally`,
`getImprovementSuggestions`) and of the `RiskMatrix` component
(`matrixCategories`, `parseRiskCategory`, `getRecommendation`).

JavaScript numbers are modelled as rationals (`ℚ`); a possibly-absent
(`undefined`/`null`) value is an `Option`.  `x || d` on numbers is `jsOr`
(the default is also taken when the value is `0`, since `0` is falsy in
JavaScript), while the nullish coalescing `x ?? d` is `Option.getD`.
`Math.round` rounds half-up, which is `⌊x + 1/2⌋`.
-/

namespace IncluScore

/-- JavaScript `o || d` for an optional number: `undefined`, `null` and `0`
are falsy and yield the default. -/
def jsOr (o : Option ℚ) (d : ℚ) : ℚ :=
  match o with
  | none => d
  | some v => if v = 0 then d else v

/-- JavaScript `o || d` for an optional string: `undefined`, `null` and the
empty string are falsy and yield the default. -/
def jsOrS (o : Option String) (d : String) : String :=
  match o with
  | none => d
  | some s => if s = "" then d else s

/-- JavaScript truthiness of an optional number (used by `cond ? a : b`). -/
def jsTruthy (o : Option ℚ) : Bool :=
  match o with
  | none => false
  | some v => !(v == 0)

/-- JavaScript `Math.round`: round half toward positive infinity. -/
def jsRound (q : ℚ) : ℤ := ⌊q + 1/2⌋

/-- Whether the character list `s` starts with the character list `pat`. -/
def charsStartWith : List Char → List Char → Bool
  | _, [] => true
  | [], _ :: _ => false
  | a :: as, b :: bs => a == b && charsStartWith as bs

/-- Whether the character list `pat` occurs contiguously inside `s`. -/
def charsHave : List Char → List Char → Bool
  | [], pat => charsStartWith [] pat
  | s@(_ :: rest), pat => charsStartWith s pat || charsHave rest pat

/-- JavaScript `s.includes(pat)`. -/
def strContains (s pat : String) : Bool := charsHave s.toList pat.toList

/-- JavaScript `s.startsWith(pat)`. -/
def strStartsWith (s pat : String) : Bool := charsStartWith s.toList pat.toList

/-- An employment-type value as it may arrive at `convertEmploymentType`:
either already numeric, or a textual label. -/
inductive EmpInput
  | num (v : ℚ)
  | label (s : String)
deriving DecidableEq

/-- The raw `currentData` object of the `ScoreSimulator` component.  Every
field may be absent; `employment_type` may additionally be a textual label. -/
structure CurrentData where
  loan_repayment_status : Option ℚ
  loan_tenure_months : Option ℚ
  electricity_bill_paid_on_time : Option ℚ
  mobile_recharge_frequency : Option ℚ
  is_high_need : Option ℚ
  age : Option ℚ
  monthly_income : Option ℚ
  employment_type : Option EmpInput
deriving DecidableEq

/-- `currentData` with every field absent. -/
def emptyCur : CurrentData := ⟨none, none, none, none, none, none, none, none⟩

/-- Replace only the `employment_type` field of a `CurrentData`. -/
def setEmploymentType (d : CurrentData) (e : Option EmpInput) : CurrentData :=
  ⟨d.loan_repayment_status, d.loan_tenure_months, d.electricity_bill_paid_on_time,
   d.mobile_recharge_frequency, d.is_high_need, d.age, d.monthly_income, e⟩

/-- The `hypotheticalChanges` object: at most one numeric value per feature
key handled by `simulateScoreLocally` (values are numbers, typed by
`handleParameterChange`).  Keys absent from the object are `none`. -/
structure Changes where
  monthly_income : Option ℚ
  employment_type : Option ℚ
  loan_repayment_status : Option ℚ
  electricity_bill_paid_on_time : Option ℚ
  mobile_recharge_frequency : Option ℚ
  loan_tenure_months : Option ℚ
deriving DecidableEq

/-- `Object.keys(hypotheticalChanges).length === 0`. -/
def Changes.noKeys (ch : Changes) : Bool :=
  ch.monthly_income.isNone && ch.employment_type.isNone &&
  ch.loan_repayment_status.isNone && ch.electricity_bill_paid_on_time.isNone &&
  ch.mobile_recharge_frequency.isNone && ch.loan_tenure_months.isNone

/-- The fixed lookup table of `convertEmploymentType`:
`{ 'unemployed': 0, 'self_employed': 1, 'salaried': 2, 'business_owner': 3 }`. -/
def empMapping : List (String × ℚ) :=
  [("unemployed", 0), ("self_employed", 1), ("salaried", 2), ("business_owner", 3)]

/-- `convertEmploymentType` of `ScoreSimulator.js`: numeric input is returned
unchanged; a label is looked up in `empMapping`, and `mapping[empType] || 0`
sends an unknown label (lookup yields `undefined`) to `0`. -/
def convertEmploymentType : EmpInput → ℚ
  | .num v => v
  | .label s => jsOr ((empMapping.find? (fun p => p.1 == s)).map Prod.snd) 0

/-- The payload `prepareDataForBackend` builds: all eight features as
numbers.  This is everything the conversion step hands onward. -/
structure PreparedData where
  loan_repayment_status : ℚ
  loan_tenure_months : ℚ
  electricity_bill_paid_on_time : ℚ
  mobile_recharge_frequency : ℚ
  is_high_need : ℚ
  age : ℚ
  monthly_income : ℚ
  employment_type : ℚ
deriving DecidableEq

/-- `prepareDataForBackend` of `ScoreSimulator.js` (`??` defaults, the
`is_high_need ? 1 : 0` ternary, and `convertEmploymentType`). -/
def prepareDataForBackend (d : CurrentData) : PreparedData :=
  { loan_repayment_status := d.loan_repayment_status.getD 0
    loan_tenure_months := d.loan_tenure_months.getD 12
    electricity_bill_paid_on_time := d.electricity_bill_paid_on_time.getD 0
    mobile_recharge_frequency := d.mobile_recharge_frequency.getD 1
    is_high_need := if jsTruthy d.is_high_need then 1 else 0
    age := d.age.getD 30
    monthly_income := d.monthly_income.getD 0
    employment_type := convertEmploymentType (d.employment_type.getD (.num 0)) }

/-- Numeric value of `current.employment_type || 0` as used in the `<` / `>`
comparisons of `simulateScoreLocally`.  `none` compares as the default `0`;
a non-empty label is one of the enum names, which coerces to `NaN` in
JavaScript, so both comparisons are false: modelled as `none`. -/
def empNumVal : Option EmpInput → Option ℚ
  | none => some 0
  | some (.num v) => some v
  | some (.label s) => if s = "" then some 0 else none

/-- The `monthly_income` case of `simulateScoreLocally`:
`Math.min(((value − (current.monthly_income || 0)) / 1000) * 2, 50)`. -/
def incomeContribution (current : CurrentData) (value : ℚ) : ℚ :=
  min ((value - jsOr current.monthly_income 0) / 1000 * 2) 50

/-- The `employment_type` case of `simulateScoreLocally`:
`+25` on increase, `−15` on decrease (no contribution against a `NaN`). -/
def empContribution (current : CurrentData) (value : ℚ) : ℚ :=
  match empNumVal current.employment_type with
  | none => 0
  | some w => (if value > w then 25 else 0) + (if value < w then -15 else 0)

/-- The `loan_repayment_status` case: `+40` on increase, `−40` on decrease. -/
def lrsContribution (current : CurrentData) (value : ℚ) : ℚ :=
  (if value > jsOr current.loan_repayment_status 0 then 40 else 0) +
  (if value < jsOr current.loan_repayment_status 0 then -40 else 0)

/-- The `electricity_bill_paid_on_time` case: `+30` / `−30`. -/
def elecContribution (current : CurrentData) (value : ℚ) : ℚ :=
  (if value > jsOr current.electricity_bill_paid_on_time 0 then 30 else 0) +
  (if value < jsOr current.electricity_bill_paid_on_time 0 then -30 else 0)

/-- The `mobile_recharge_frequency` case: `+15` on increase, `−10` on
decrease. -/
def mobileContribution (current : CurrentData) (value : ℚ) : ℚ :=
  (if value > jsOr current.mobile_recharge_frequency 0 then 15 else 0) +
  (if value < jsOr current.mobile_recharge_frequency 0 then -10 else 0)

/-- The `loan_tenure_months` case: `+10` for a shorter tenure, `−5` for a
longer one. -/
def tenureContribution (current : CurrentData) (value : ℚ) : ℚ :=
  (if value - jsOr current.loan_tenure_months 12 < 0 then 10 else 0) +
  (if value - jsOr current.loan_tenure_months 12 > 0 then -5 else 0)

/-- Contribution of one optional change entry (absent keys contribute 0). -/
def optContribution (o : Option ℚ) (f : ℚ → ℚ) : ℚ :=
  match o with
  | none => 0
  | some v => f v

/-- The `scoreAdjustment` accumulated by the `Object.entries(changes)` loop
of `simulateScoreLocally`.  Each key appears at most once in a JavaScript
object and rational addition is commutative and associative, so the loop is
the sum of the per-key contributions; keys outside the six handled ones fall
into the `default:` case and contribute nothing. -/
def scoreAdjustment (current : CurrentData) (changes : Changes) : ℚ :=
  optContribution changes.monthly_income (incomeContribution current) +
  optContribution changes.employment_type (empContribution current) +
  optContribution changes.loan_repayment_status (lrsContribution current) +
  optContribution changes.electricity_bill_paid_on_time (elecContribution current) +
  optContribution changes.mobile_recharge_frequency (mobileContribution current) +
  optContribution changes.loan_tenure_months (tenureContribution current)

/-- The object literal returned by `simulateScoreLocally`. -/
structure LocalSimResult where
  projected_score : ℤ
  score_change : ℤ
  explanation : String
deriving DecidableEq

/-- The explanation string assembled by `simulateScoreLocally` from the
accumulated `scoreAdjustment`. -/
def localExplanation (adj : ℚ) : String :=
  "Local simulation based on your changes: " ++
  (if adj > 0 then
    "These improvements could increase your score by approximately " ++
      toString (jsRound adj) ++ " points. "
   else if adj < 0 then
    "These changes might decrease your score by approximately " ++
      toString (jsRound |adj|) ++ " points. "
   else
    "These changes would have minimal impact on your current score. ") ++
  "This is a simplified calculation. For more accurate projections, ensure the backend server is running."

/-- `simulateScoreLocally` of `ScoreSimulator.js`: the degraded-mode
heuristic.  `currentScore` is the component prop (`currentScore || 650`);
the projected score is clamped to `[300, 850]` and rounded, while
`score_change` is the rounded raw adjustment. -/
def simulateScoreLocally (currentScore : Option ℚ) (current : CurrentData)
    (changes : Changes) : LocalSimResult :=
  let baseScore := jsOr currentScore 650
  let adj := scoreAdjustment current changes
  let projected := max 300 (min 850 (baseScore + adj))
  { projected_score := jsRound projected
    score_change := jsRound adj
    explanation := localExplanation adj }

/-- A successful response of the backend `/simulate` endpoint. -/
structure BackendSim where
  projected_score : ℚ
  score_change : ℚ
  explanation : String

/-- How the awaited `simulateScore` call ends: a response, or a thrown error
carrying its message. -/
inductive BackendOutcome
  | ok (r : BackendSim)
  | err (msg : String)

/-- The caller-visible outcome of `handleSimulate`: either only the `error`
state is set, or the `projectedScore` / `scoreChange` / `explanation` states
are set. -/
inductive SimulateOutcome
  | errorMsg (msg : String)
  | result (projected : ℚ) (score_change : ℚ) (explanation : String)

/-- The projected score shown to the caller, if any. -/
def SimulateOutcome.projectedScore? : SimulateOutcome → Option ℚ
  | .errorMsg _ => none
  | .result p _ _ => some p

/-- The score change shown to the caller, if any. -/
def SimulateOutcome.scoreChange? : SimulateOutcome → Option ℚ
  | .errorMsg _ => none
  | .result _ c _ => some c

/-- The explanation shown to the caller, if any. -/
def SimulateOutcome.explanation? : SimulateOutcome → Option String
  | .errorMsg _ => none
  | .result _ _ e => some e

/-- Whether `handleSimulate` ended in the error state. -/
def SimulateOutcome.isError : SimulateOutcome → Bool
  | .errorMsg _ => true
  | .result _ _ _ => false

/-- The prefix `handleSimulate` puts in front of a fallback explanation. -/
def degradedMarker : String := "⚠️ Using simplified calculation (backend unavailable): "

/-- `handleSimulate` of `ScoreSimulator.js`.  `hasCurrentData` is the
truthiness of the `currentData` prop.  An empty change set is rejected up
front; a thrown backend error whose message mentions a connection problem is
surfaced as an error; any other thrown error triggers the
`simulateScoreLocally` fallback, whose explanation is tagged with
`degradedMarker`. -/
def handleSimulate (hasCurrentData : Bool) (currentScore : Option ℚ)
    (current : CurrentData) (changes : Changes) (backend : BackendOutcome) :
    SimulateOutcome :=
  if !hasCurrentData || changes.noKeys then
    .errorMsg "Please make at least one change to simulate"
  else
    match backend with
    | .ok r => .result r.projected_score r.score_change r.explanation
    | .err msg =>
      if strContains msg "No response from server" || strContains msg "Network Error" then
        .errorMsg "Backend server not responding. Please ensure the backend server is running on http://localhost:8000"
      else
        let localResult := simulateScoreLocally currentScore current changes
        .result (localResult.projected_score : ℚ) (localResult.score_change : ℚ)
          (degradedMarker ++ localResult.explanation)

/-- One entry of the `suggestions` array of `getImprovementSuggestions`. -/
structure Suggestion where
  parameter : String
  value : ℚ
  title : String
  description : String
  impact : String
deriving DecidableEq

/-- The loan-repayment suggestion literal. -/
def sugLoanRepayment : Suggestion :=
  ⟨"loan_repayment_status", 1, "Improve Loan Repayment",
   "Make all future loan payments on time", "High"⟩

/-- The utility-bill suggestion literal. -/
def sugElectric : Suggestion :=
  ⟨"electricity_bill_paid_on_time", 1, "Pay Utility Bills On Time",
   "Set up automatic bill payments", "Medium"⟩

/-- The mobile-recharge suggestion literal. -/
def sugMobile : Suggestion :=
  ⟨"mobile_recharge_frequency", 4, "Increase Mobile Recharge Frequency",
   "Recharge more regularly to show stable income", "Low"⟩

/-- The employment suggestion literal. -/
def sugEmployment : Suggestion :=
  ⟨"employment_type", 2, "Secure Stable Employment",
   "Find salaried employment for better creditworthiness", "High"⟩

/-- JavaScript `(currentData.employment_type ?? 0) === 0`: strict equality,
so a textual label is never `=== 0`. -/
def empStrictZero : Option EmpInput → Bool
  | none => true
  | some (.num v) => v == 0
  | some (.label _) => false

/-- `getImprovementSuggestions` of `ScoreSimulator.js`: four fixed condition
checks pushed in source order, then `suggestions.slice(0, 3)`. -/
def getImprovementSuggestions (hasCurrentData : Bool) (d : CurrentData) :
    List Suggestion :=
  if !hasCurrentData then []
  else
    ((if d.loan_repayment_status.getD 0 = 0 then [sugLoanRepayment] else []) ++
     (if d.electricity_bill_paid_on_time.getD 0 = 0 then [sugElectric] else []) ++
     (if d.mobile_recharge_frequency.getD 1 < 3 then [sugMobile] else []) ++
     (if empStrictZero d.employment_type then [sugEmployment] else [])).take 3

/-- One cell of the `matrixCategories` table of `RiskMatrix.js`. -/
structure MatrixCell where
  id : String
  risk : String
  need : String
  color : String
  label : String
  description : String
  recommendation : String
deriving DecidableEq

/-- The static `matrixCategories` lookup table of `RiskMatrix.js`. -/
def matrixCategories : List MatrixCell :=
  [⟨"low-risk-low-need", "Low Risk", "Low Need", "#4caf50", "Stable",
    "Low risk, financially stable", "Maintain current financial habits"⟩,
   ⟨"low-risk-high-need", "Low Risk", "High Need", "#2196f3", "Prime Candidate",
    "Low risk, high need for credit", "Ideal for loan approval"⟩,
   ⟨"medium-risk-low-need", "Medium Risk", "Low Need", "#ff9800", "Monitor",
    "Moderate risk, low need", "Monitor financial behavior"⟩,
   ⟨"high-risk-low-need", "High Risk", "Low Need", "#ff9800", "Monitor",
    "High risk, low need", "Monitor financial behavior"⟩,
   ⟨"medium-risk-high-need", "Medium Risk", "High Need", "#ff5722", "Caution",
    "Moderate risk, high need", "Conditional approval with guidance"⟩,
   ⟨"high-risk-high-need", "High Risk", "High Need", "#f44336", "High Risk",
    "High risk, high need", "Requires financial guidance"⟩]

/-- JavaScript `category.split(' - ')` on the character list of the input:
scans left to right, cutting at each non-overlapping occurrence of the
three-character separator `' - '`.  `acc` holds the current piece reversed. -/
def splitDash : List Char → List Char → List (List Char)
  | acc, ' ' :: '-' :: ' ' :: rest => acc.reverse :: splitDash [] rest
  | acc, c :: rest => splitDash (c :: acc) rest
  | acc, [] => [acc.reverse]

/-- `parseRiskCategory` of `RiskMatrix.js`: `!category` (absent or empty
string) yields `Unknown`/`Unknown`, otherwise the string is split on
`' - '` and missing/empty parts default to `Unknown`. -/
def parseRiskCategory (category : Option String) : String × String :=
  match category with
  | none => ("Unknown", "Unknown")
  | some c =>
    if c = "" then ("Unknown", "Unknown")
    else
      let parts := (splitDash [] c.toList).map (fun l => String.mk l)
      (jsOrS (parts.get? 0) "Unknown", jsOrS (parts.get? 1) "Unknown")

/-- The `currentCategory` lookup of `RiskMatrix.js`: an exact-match search
of `matrixCategories`, with the `||` fallback that searches for a cell whose
risk contains `Medium` with the same need. -/
def findCategory (risk need : String) : Option MatrixCell :=
  (matrixCategories.find? (fun c => c.risk == risk && c.need == need)).orElse
    (fun _ => matrixCategories.find? (fun c => strContains c.risk "Medium" && c.need == need))

/-- `getRecommendation` of `RiskMatrix.js`: the recommendation of the found
cell, else score-threshold fallback text. -/
def getRecommendation (riskCategory : Option String) (score : ℚ) : String :=
  match findCategory (parseRiskCategory riskCategory).1 (parseRiskCategory riskCategory).2 with
  | some c => c.recommendation
  | none =>
    if score ≥ 700 then "Excellent creditworthiness - approve loans confidently"
    else if score ≥ 550 then "Good candidate - consider with standard terms"
    else "Requires improvement - provide financial guidance"

/-- A baseline whose effective `loan_repayment_status` is `0` and whose other
fields are absent. -/
def exCur0 : CurrentData := ⟨some 0, none, none, none, none, none, none, none⟩

/-- The single hypothetical change `loan_repayment_status: 1`. -/
def chgLRS1 : Changes := ⟨none, none, some 1, none, none, none⟩

/-- The empty change set. -/
def emptyChanges : Changes := ⟨none, none, none, none, none, none⟩

/-- A baseline with a monthly income of 200000 and no other fields. -/
def curHighIncome : CurrentData := ⟨none, none, none, none, none, none, some 200000, none⟩

/-- The single hypothetical change `monthly_income: 0`. -/
def chgIncome0 : Changes := ⟨some 0, none, none, none, none, none⟩

/-- A baseline for which all four suggestion conditions fire: defaulted
repayment, late bills, one recharge per month, unemployed. -/
def dAllLacking : CurrentData := ⟨some 0, none, some 0, some 1, none, none, none, some (.num 0)⟩

/-- A returned suggestion together with the condition on the current data
that emits it in `getImprovementSuggestions`. -/
def applicable (d : CurrentData) (s : Suggestion) : Prop :=
  (s = sugLoanRepayment ∧ d.loan_repayment_status.getD 0 = 0) ∨
  (s = sugElectric ∧ d.electricity_bill_paid_on_time.getD 0 = 0) ∨
  (s = sugMobile ∧ d.mobile_recharge_frequency.getD 1 < 3) ∨
  (s = sugEmployment ∧ empStrictZero d.employment_type = true)

/-! ## Helper lemmas -/

/-- A `Math.round` result exceeds the argument minus a half. -/
theorem jsRound_gt (x : ℚ) : x - 1/2 < (jsRound x : ℚ) := by
  have h := Int.sub_one_lt_floor (x + 1/2)
  unfold jsRound
  linarith

/-- A `Math.round` result is at most the argument plus a half. -/
theorem jsRound_le (x : ℚ) : (jsRound x : ℚ) ≤ x + 1/2 :=
  Int.floor_le _

/-- The single change `loan_repayment_status: 0→1` accumulates exactly the
documented `+40` adjustment. -/
theorem scoreAdjustment_lrs1 (cur : CurrentData)
    (hl : jsOr cur.loan_repayment_status 0 = 0) :
    scoreAdjustment cur chgLRS1 = 40 := by
  simp [scoreAdjustment, chgLRS1, optContribution, lrsContribution, hl]

/-! ## Claims -/

/-- Claim C1: when the live model is unavailable and the degraded-mode
heuristic is used (the backend call throws a non-connection error), the
`simulate` output is tagged with the distinguishing `⚠️` marker in its
explanation, and for a baseline score of 650 with the single change
`loan_repayment_status: 0→1` the projected score is 650+40=690 and the
score change is +40. -/
theorem c1_degraded_tagging_and_formula :
    handleSimulate true (some 650) exCur0 chgLRS1 (.err "500: Internal Server Error") =
      .result 690 40 (degradedMarker ++ localExplanation 40) ∧
    strStartsWith
      ((handleSimulate true (some 650) exCur0 chgLRS1
          (.err "500: Internal Server Error")).explanation?.getD "")
      degradedMarker = true := by
  have hadj : scoreAdjustment exCur0 chgLRS1 = 40 :=
    scoreAdjustment_lrs1 exCur0 (by simp [exCur0, jsOr])
  have h1 : strContains "500: Internal Server Error" "No response from server" = false := by
    decide
  have h2 : strContains "500: Internal Server Error" "Network Error" = false := by decide
  have hk : chgLRS1.noKeys = false := by decide
  have hout : handleSimulate true (some 650) exCur0 chgLRS1
      (.err "500: Internal Server Error") =
      .result 690 40 (degradedMarker ++ localExplanation 40) := by
    simp [handleSimulate, h1, h2, hk, simulateScoreLocally, hadj, jsOr]
    norm_num [jsRound]
  refine ⟨hout, ?_⟩
  rw [hout]
  decide

/-- Claim C9: a simulate request with an empty change set is rejected as a
caller error — `handleSimulate` reports the naming error message and
produces no projected score, for every baseline and independently of how the
backend would have answered (so no heuristic or model path runs). -/
theorem c9_empty_changes_error (hasData : Bool) (cs : Option ℚ)
    (cur : CurrentData) (ch : Changes) (b : BackendOutcome)
    (h : ch.noKeys = true) :
    handleSimulate hasData cs cur ch b =
      .errorMsg "Please make at least one change to simulate" ∧
    (handleSimulate hasData cs cur ch b).projectedScore? = none := by
  unfold handleSimulate
  simp [h, SimulateOutcome.projectedScore?]

/-- Witness for C9 at a concrete baseline: the empty change set is rejected
even though the backend would have answered. -/
theorem c9_empty_changes_witness :
    handleSimulate true (some 650) exCur0 emptyChanges (.ok ⟨700, 50, "model answer"⟩) =
      .errorMsg "Please make at least one change to simulate" ∧
    (handleSimulate true (some 650) exCur0 emptyChanges
      (.ok ⟨700, 50, "model answer"⟩)).projectedScore? = none :=
  c9_empty_changes_error true (some 650) exCur0 emptyChanges
    (.ok ⟨700, 50, "model answer"⟩) (by decide)

/-- Claim C2 counterexample: when the backend is unreachable (the thrown
message is the api layer's `No response from server…` wrapped by
`simulateScore`), `handleSimulate` ends in the error state and the caller
receives no projected score — the heuristic fallback is not used. -/
theorem c2_unreachable_backend_errors :
    (handleSimulate true (some 650) exCur0 chgLRS1
      (.err "Failed to simulate score: No response from server. Please check your connection.")).isError
      = true ∧
    (handleSimulate true (some 650) exCur0 chgLRS1
      (.err "Failed to simulate score: No response from server. Please check your connection.")).projectedScore?
      = none := by
  have hk : chgLRS1.noKeys = false := by decide
  have h1 : strContains
      "Failed to simulate score: No response from server. Please check your connection."
      "No response from server" = true := by decide
  constructor <;>
    simp [handleSimulate, hk, h1, SimulateOutcome.isError, SimulateOutcome.projectedScore?]

/-- Claim C2 amended: the fallback heuristic is used only for backend errors
that are not connection failures — whenever the change set is non-empty and
the thrown message mentions neither `No response from server` nor
`Network Error`, the caller receives the heuristic projection instead of an
error; a connection failure instead surfaces an error (see the
counterexample). -/
theorem c2_fallback_on_other_errors (cs : Option ℚ) (cur : CurrentData)
    (ch : Changes) (msg : String)
    (hk : ch.noKeys = false)
    (h1 : strContains msg "No response from server" = false)
    (h2 : strContains msg "Network Error" = false) :
    (handleSimulate true cs cur ch (.err msg)).projectedScore? =
      some ((simulateScoreLocally cs cur ch).projected_score : ℚ) ∧
    (handleSimulate true cs cur ch (.err msg)).isError = false := by
  constructor <;>
    simp [handleSimulate, hk, h1, h2, SimulateOutcome.isError, SimulateOutcome.projectedScore?]

/-- Witness for the amended C2 at a concrete input: a server-side `500`
error triggers the heuristic fallback and yields a projection. -/
theorem c2_fallback_witness :
    (handleSimulate true (some 650) exCur0 chgLRS1
      (.err "500: Internal Server Error")).projectedScore? =
      some ((simulateScoreLocally (some 650) exCur0 chgLRS1).projected_score : ℚ) ∧
    (handleSimulate true (some 650) exCur0 chgLRS1
      (.err "500: Internal Server Error")).isError = false :=
  c2_fallback_on_other_errors (some 650) exCur0 chgLRS1 "500: Internal Server Error"
    (by decide) (by decide) (by decide)

/-- Claim C3 counterexample: with baseline score 650, income 200000 and the
single change `monthly_income: 0`, the raw adjustment is −400, the projected
score is clamped to 300, and the returned `score_change` (−400) differs from
`projected_score − baseline` (−350): the delta does not account for
clamping. -/
theorem c3_clamped_delta_mismatch :
    (simulateScoreLocally (some 650) curHighIncome chgIncome0).projected_score = 300 ∧
    (simulateScoreLocally (some 650) curHighIncome chgIncome0).score_change = -400 ∧
    (simulateScoreLocally (some 650) curHighIncome chgIncome0).score_change ≠
      (simulateScoreLocally (some 650) curHighIncome chgIncome0).projected_score - 650 := by
  have hadj : scoreAdjustment curHighIncome chgIncome0 = -400 := by
    simp [scoreAdjustment, curHighIncome, chgIncome0, optContribution,
      incomeContribution, jsOr]
    norm_num
  refine ⟨?_, ?_, ?_⟩ <;>
    simp [simulateScoreLocally, hadj, jsOr] <;>
    norm_num [jsRound]

/-- Claim C3 amended: `score_change` is the rounded raw adjustment, so it
equals `projected_score −` the caller-supplied current score exactly when no
clamping occurs, i.e. whenever the unclamped projection stays within
`[300, 850]` (for an integral, non-zero baseline score); under clamping the
two differ (see the counterexample). -/
theorem c3_delta_equals_diff_when_unclamped (cs : ℤ) (cur : CurrentData)
    (ch : Changes) (h0 : (cs : ℚ) ≠ 0)
    (hlo : 300 ≤ (cs : ℚ) + scoreAdjustment cur ch)
    (hhi : (cs : ℚ) + scoreAdjustment cur ch ≤ 850) :
    (simulateScoreLocally (some (cs : ℚ)) cur ch).score_change =
      (simulateScoreLocally (some (cs : ℚ)) cur ch).projected_score - cs := by
  show jsRound (scoreAdjustment cur ch) =
    jsRound (max 300 (min 850 (jsOr (some (cs : ℚ)) 650 + scoreAdjustment cur ch))) - cs
  rw [show jsOr (some (cs : ℚ)) 650 = (cs : ℚ) from by simp [jsOr, h0],
    min_eq_right hhi, max_eq_right hlo]
  unfold jsRound
  rw [show (cs : ℚ) + scoreAdjustment cur ch + 1/2 =
        scoreAdjustment cur ch + 1/2 + (cs : ℤ) from by ring,
    Int.floor_add_int]
  ring

/-- Witness for the amended C3 at baseline 650 with the single change
`loan_repayment_status: 0→1`: no clamping, and the delta matches. -/
theorem c3_delta_witness :
    (simulateScoreLocally (some ((650 : ℤ) : ℚ)) exCur0 chgLRS1).score_change =
      (simulateScoreLocally (some ((650 : ℤ) : ℚ)) exCur0 chgLRS1).projected_score - 650 :=
  c3_delta_equals_diff_when_unclamped 650 exCur0 chgLRS1 (by norm_num)
    (by rw [scoreAdjustment_lrs1 exCur0 (by simp [exCur0, jsOr])]; norm_num)
    (by rw [scoreAdjustment_lrs1 exCur0 (by simp [exCur0, jsOr])]; norm_num)

/-- Claim C4 counterexample: for the baseline score 900 (inside the
documented 300–900 display range) the single improving change
`loan_repayment_status: 0→1` yields a projected score clamped to the
heuristic's 850 cap — strictly lower than the baseline. -/
theorem c4_cap_decreases_high_baseline :
    (simulateScoreLocally (some 900) exCur0 chgLRS1).projected_score = 850 ∧
    ((simulateScoreLocally (some 900) exCur0 chgLRS1).projected_score : ℚ) < 900 := by
  have hadj := scoreAdjustment_lrs1 exCur0 (by simp [exCur0, jsOr])
  constructor <;> simp [simulateScoreLocally, hadj, jsOr] <;> norm_num [jsRound]

/-- Claim C4 amended: for every baseline whose effective
`loan_repayment_status` is 0 and whose caller-supplied current score is at
most the heuristic's 850 cap, the single change `loan_repayment_status: 1`
never lowers the projected score below the baseline; baselines above 850 are
clamped down (see the counterexample). -/
theorem c4_monotone_up_to_cap (cs : ℚ) (cur : CurrentData)
    (hl : jsOr cur.loan_repayment_status 0 = 0) (hcs : cs ≤ 850) :
    cs ≤ ((simulateScoreLocally (some cs) cur chgLRS1).projected_score : ℚ) := by
  have hadj := scoreAdjustment_lrs1 cur hl
  show cs ≤ (jsRound (max 300 (min 850 (jsOr (some cs) 650 + scoreAdjustment cur chgLRS1))) : ℚ)
  rw [hadj]
  by_cases h0 : cs = 0
  · subst h0
    have : jsOr (some (0 : ℚ)) 650 = 650 := by simp [jsOr]
    rw [this]
    norm_num [jsRound]
  · rw [show jsOr (some cs) 650 = cs from by simp [jsOr, h0]]
    by_cases hc : cs + 40 ≤ 850
    · rw [min_eq_right hc]
      have h1 := jsRound_gt (max 300 (cs + 40))
      have h2 : cs + 40 ≤ max 300 (cs + 40) := le_max_right _ _
      linarith
    · push_neg at hc
      rw [min_eq_left (by linarith), show max (300 : ℚ) 850 = 850 from by norm_num,
        show jsRound (850 : ℚ) = 850 from by norm_num [jsRound]]
      push_cast
      linarith

/-- Witness for the amended C4 at baseline 650: the projected score (690) is
not below the baseline. -/
theorem c4_monotone_witness :
    (650 : ℚ) ≤ ((simulateScoreLocally (some 650) exCur0 chgLRS1).projected_score : ℚ) :=
  c4_monotone_up_to_cap 650 exCur0 (by simp [exCur0, jsOr]) (by norm_num)

/-- Claim C5: every valid `(risk, need)` pair — risk among Low/Medium/High
Risk, need among Low/High Need — is mapped by the matrix lookup to a defined
cell, and `getRecommendation` returns that cell's fixed recommendation label
regardless of the score (the score-based fallback is unreachable for valid
pairs). -/
theorem c5_matrix_complete (risk need : String)
    (hr : risk ∈ ["Low Risk", "Medium Risk", "High Risk"])
    (hn : need ∈ ["Low Need", "High Need"]) :
    ∃ c : MatrixCell, findCategory risk need = some c ∧
      ∀ score : ℚ, getRecommendation (some (risk ++ " - " ++ need)) score =
        c.recommendation := by
  fin_cases hr <;> fin_cases hn <;> exact ⟨_, rfl, fun _ => rfl⟩

/-- Witness for C5 at the concrete pair `("Low Risk", "Low Need")`. -/
theorem c5_matrix_witness :
    ∃ c : MatrixCell, findCategory "Low Risk" "Low Need" = some c ∧
      ∀ score : ℚ, getRecommendation (some ("Low Risk" ++ " - " ++ "Low Need")) score =
        c.recommendation :=
  c5_matrix_complete "Low Risk" "Low Need" (by simp) (by simp)

/-- Claim C6 counterexample: the unknown label `freelancer` is encoded as
the unemployed default `0`, but no warning is surfaced anywhere — the
prepared backend payload and the whole `handleSimulate` outcome are
indistinguishable from those of a genuine `unemployed` input. -/
theorem c6_no_warning_for_unknown_label :
    convertEmploymentType (.label "freelancer") = 0 ∧
    prepareDataForBackend (setEmploymentType emptyCur (some (.label "freelancer"))) =
      prepareDataForBackend (setEmploymentType emptyCur (some (.label "unemployed"))) ∧
    handleSimulate true (some 650) (setEmploymentType exCur0 (some (.label "freelancer")))
        chgLRS1 (.err "500: Server error") =
      handleSimulate true (some 650) (setEmploymentType exCur0 (some (.label "unemployed")))
        chgLRS1 (.err "500: Server error") := by
  have hk : chgLRS1.noKeys = false := by decide
  have h1 : strContains "500: Server error" "No response from server" = false := by decide
  have h2 : strContains "500: Server error" "Network Error" = false := by decide
  refine ⟨by decide, by decide, ?_⟩
  norm_num [handleSimulate, Changes.noKeys, h1, h2, simulateScoreLocally,
    scoreAdjustment, setEmploymentType, exCur0, chgLRS1, optContribution,
    lrsContribution, jsOr]

/-- Claim C6 amended: an employment-type label outside the lookup table is
encoded as the unemployed default `0` rather than failing, but the
substitution is silent — the prepared payload equals that of an
`unemployed` input, with no warning channel. -/
theorem c6_unknown_label_defaults_silently (d : CurrentData) (s : String)
    (h : empMapping.find? (fun p => p.1 == s) = none) :
    convertEmploymentType (.label s) = 0 ∧
    prepareDataForBackend (setEmploymentType d (some (.label s))) =
      prepareDataForBackend (setEmploymentType d (some (.label "unemployed"))) := by
  have hc : convertEmploymentType (.label s) = 0 := by
    simp [convertEmploymentType, h, jsOr]
  refine ⟨hc, ?_⟩
  unfold prepareDataForBackend setEmploymentType
  simp [hc]
  decide

/-- Witness for the amended C6 at the concrete unknown label `freelancer`. -/
theorem c6_unknown_label_witness :
    convertEmploymentType (.label "freelancer") = 0 ∧
    prepareDataForBackend (setEmploymentType emptyCur (some (.label "freelancer"))) =
      prepareDataForBackend (setEmploymentType emptyCur (some (.label "unemployed"))) :=
  c6_unknown_label_defaults_silently emptyCur "freelancer" (by decide)

/-- Claim C7 counterexample: the lookup table itself contains
`business_owner: 3`, so encoding that label yields `3`, outside the
documented enum domain `{0, 1, 2}`. -/
theorem c7_business_owner_out_of_enum :
    convertEmploymentType (.label "business_owner") = 3 ∧
    convertEmploymentType (.label "business_owner") ∉ ([0, 1, 2] : List ℚ) := by
  decide

/-- Claim C7 amended: every textual label is encoded inside `{0, 1, 2, 3}`
(the table's four values, unknown labels defaulting to 0), while a numeric
input is passed through unchanged and is not constrained at all. -/
theorem c7_encoding_range :
    (∀ s : String, convertEmploymentType (.label s) ∈ ([0, 1, 2, 3] : List ℚ)) ∧
    (∀ v : ℚ, convertEmploymentType (.num v) = v) := by
  constructor
  · intro s
    cases h : empMapping.find? (fun p => p.1 == s) with
    | none => simp [convertEmploymentType, h, jsOr]
    | some p =>
      have hp : p ∈ empMapping := List.mem_of_find?_eq_some h
      have h4 : p.2 = 0 ∨ p.2 = 1 ∨ p.2 = 2 ∨ p.2 = 3 := by
        fin_cases hp <;> norm_num
      rcases h4 with h4 | h4 | h4 | h4 <;> norm_num [convertEmploymentType, h, jsOr, h4]
  · intro v
    rfl

/-- A conditionally pushed singleton block is a sublist of the singleton. -/
theorem ite_single_sublist {α : Type} (c : Prop) [Decidable c] (a : α) :
    (if c then [a] else []).Sublist [a] := by
  split
  · exact List.Sublist.refl _
  · exact List.nil_sublist _

/-- Membership in a conditionally pushed singleton block yields the
condition and the identity of the element. -/
theorem mem_ite_single {α : Type} {c : Prop} [Decidable c] {a s : α}
    (h : s ∈ (if c then [a] else [])) : c ∧ s = a := by
  by_cases hc : c
  · rw [if_pos hc] at h
    simp only [List.mem_singleton] at h
    exact ⟨hc, h⟩
  · rw [if_neg hc] at h
    simp at h

/-- Claim C8 counterexample: when all four suggestion conditions fire, the
returned list is the first three blocks in source order — it keeps the
Low-impact mobile-recharge suggestion while dropping the applicable
High-impact employment suggestion, so the returned suggestions are not the
top ones by impact magnitude. -/
theorem c8_higher_impact_dropped :
    getImprovementSuggestions true dAllLacking = [sugLoanRepayment, sugElectric, sugMobile] ∧
    empStrictZero dAllLacking.employment_type = true ∧
    sugEmployment.impact = "High" ∧ sugMobile.impact = "Low" ∧
    sugEmployment ∉ getImprovementSuggestions true dAllLacking := by
  decide

/-- Claim C8 amended: each suggestion is emitted only when its feature's
condition on the current data holds and names the feature with its
directionally-correct improving change; the list is capped at 3 by
truncating the fixed emission order (loan repayment, electricity bill,
mobile recharge, employment), not by impact magnitude — so a higher-impact
applicable suggestion can be dropped in favour of earlier lower-impact ones
(see the counterexample). -/
theorem c8_fixed_order_capped (hasData : Bool) (d : CurrentData) :
    (getImprovementSuggestions hasData d).length ≤ 3 ∧
    (getImprovementSuggestions hasData d).Sublist
      [sugLoanRepayment, sugElectric, sugMobile, sugEmployment] ∧
    ∀ s ∈ getImprovementSuggestions hasData d, applicable d s := by
  cases hasData with
  | false =>
    refine ⟨by simp [getImprovementSuggestions], ?_, ?_⟩
    · show List.Sublist [] _
      exact List.nil_sublist _
    · intro s hs
      simp [getImprovementSuggestions] at hs
  | true =>
    rw [show getImprovementSuggestions true d =
        ((if d.loan_repayment_status.getD 0 = 0 then [sugLoanRepayment] else []) ++
         (if d.electricity_bill_paid_on_time.getD 0 = 0 then [sugElectric] else []) ++
         (if d.mobile_recharge_frequency.getD 1 < 3 then [sugMobile] else []) ++
         (if empStrictZero d.employment_type then [sugEmployment] else [])).take 3
      from rfl]
    refine ⟨List.length_take_le _ _, ?_, ?_⟩
    · exact (List.take_sublist _ _).trans
        ((((ite_single_sublist _ sugLoanRepayment).append
            (ite_single_sublist _ sugElectric)).append
          (ite_single_sublist _ sugMobile)).append
          (ite_single_sublist _ sugEmployment))
    · intro s hs
      have hs' := List.mem_of_mem_take hs
      rcases List.mem_append.1 hs' with habc | hd
      · rcases List.mem_append.1 habc with hab | hc
        · rcases List.mem_append.1 hab with ha | hb
          · obtain ⟨hc1, rfl⟩ := mem_ite_single ha
            exact Or.inl ⟨rfl, hc1⟩
          · obtain ⟨hc2, rfl⟩ := mem_ite_single hb
            exact Or.inr (Or.inl ⟨rfl, hc2⟩)
        · obtain ⟨hc3, rfl⟩ := mem_ite_single hc
          exact Or.inr (Or.inr (Or.inl ⟨rfl, hc3⟩))
      · obtain ⟨hc4, rfl⟩ := mem_ite_single hd
        exact Or.inr (Or.inr (Or.inr ⟨rfl, hc4⟩))

/-- Claim C10: the `monthly_income` heuristic contribution equals
`min(2 × (new − old)/1000, 50)` — so an income increase adds at most 50
points, while a decrease has no floor: for every bound `B` some income drop
contributes less than `−B`, the final projected score being kept in range
only by the clamping of the heuristic to `[300, 850]`. -/
theorem c10_income_asymmetry :
    (∀ (cur : CurrentData) (v : ℚ),
        incomeContribution cur v = min (2 * (v - jsOr cur.monthly_income 0) / 1000) 50) ∧
    (∀ (cur : CurrentData) (v : ℚ), incomeContribution cur v ≤ 50) ∧
    (∀ B : ℚ, ∃ (cur : CurrentData) (v : ℚ), incomeContribution cur v ≤ -B) ∧
    (∀ (cs : Option ℚ) (cur : CurrentData) (ch : Changes),
        300 ≤ (simulateScoreLocally cs cur ch).projected_score ∧
        (simulateScoreLocally cs cur ch).projected_score ≤ 850) := by
  refine ⟨?_, ?_, ?_, ?_⟩
  · intro cur v
    unfold incomeContribution
    congr 1
    ring
  · intro cur v
    exact min_le_right _ _
  · intro B
    refine ⟨⟨none, none, none, none, none, none, some (500 * |B| + 500), none⟩, 0, ?_⟩
    have hk : (500 * |B| + 500 : ℚ) ≠ 0 := by positivity
    unfold incomeContribution
    rw [show jsOr (some (500 * |B| + 500)) 0 = 500 * |B| + 500 from by simp [jsOr, hk]]
    rw [show ((0 : ℚ) - (500 * |B| + 500)) / 1000 * 2 = -(|B| + 1) from by ring,
      min_eq_left (by linarith [abs_nonneg B])]
    linarith [le_abs_self B]
  · intro cs cur ch
    constructor
    · show (300 : ℤ) ≤ jsRound (max 300 (min 850 (jsOr cs 650 + scoreAdjustment cur ch)))
      unfold jsRound
      rw [Int.le_floor]
      have h := le_max_left (300 : ℚ) (min 850 (jsOr cs 650 + scoreAdjustment cur ch))
      push_cast
      linarith
    · show jsRound (max 300 (min 850 (jsOr cs 650 + scoreAdjustment cur ch))) ≤ 850
      have hb : max 300 (min 850 (jsOr cs 650 + scoreAdjustment cur ch)) ≤ 850 :=
        max_le (by norm_num) (min_le_left _ _)
      have hlt : jsRound (max 300 (min 850 (jsOr cs 650 + scoreAdjustment cur ch))) < 851 := by
        unfold jsRound
        rw [Int.floor_lt]
        push_cast
        linarith
      omega

/-- Witness for the amended C7 at concrete inputs: `salaried` encodes inside
the range, and the numeric input `7` passes through unchanged. -/
theorem c7_encoding_range_witness :
    convertEmploymentType (.label "salaried") ∈ ([0, 1, 2, 3] : List ℚ) ∧
    convertEmploymentType (.num 7) = 7 :=
  ⟨c7_encoding_range.1 "salaried", c7_encoding_range.2 7⟩

/-- Witness for the amended C8 at the all-conditions baseline. -/
theorem c8_fixed_order_witness :
    (getImprovementSuggestions true dAllLacking).length ≤ 3 ∧
    (getImprovementSuggestions true dAllLacking).Sublist
      [sugLoanRepayment, sugElectric, sugMobile, sugEmployment] ∧
    ∀ s ∈ getImprovementSuggestions true dAllLacking, applicable dAllLacking s :=
  c8_fixed_order_capped true dAllLacking

/-- Witness for C10 at concrete inputs: a +1000 income change contributes at
most 50 points, and the concrete degraded projection stays in range. -/
theorem c10_income_asymmetry_witness :
    incomeContribution exCur0 1000 ≤ 50 ∧
    300 ≤ (simulateScoreLocally (some 650) exCur0 chgLRS1).projected_score := by
  exact ⟨c10_income_asymmetry.2.1 exCur0 1000,
    (c10_income_asymmetry.2.2.2 (some 650) exCur0 chgLRS1).1⟩

end IncluScore
